import Mathlib

/-!
Verification of the turn planner, message bridge, responder chat pipeline and
conversation-state defaults of the teams-bot-langgraph repository, via a
shallow embedding of the Python sources (src/message.py, src/langgraph_planner.py,
src/langgraph_agent.py, src/state.py) into Lean.
-/

namespace TeamsBot

/-- A LangChain tool call, carried verbatim by assistant messages
(src/message.py uses `langchain_core.messages.ToolCall` opaquely). -/
structure ToolCall where
  name : String
  args : String
  id : Option String
  deriving DecidableEq, Repr

/-- The canonical message of src/message.py: a Teams AI message extended with
LangChain tool-call metadata.  `role` is a plain string in the source. -/
structure Message where
  role : String
  content : Option String := none
  tool_calls : Option (List ToolCall) := none
  tool_call_id : Option String := none
  deriving DecidableEq, Repr

/-- Content of a LangChain message: the source coerces non-string content to
the empty string in `from_langchain`, so we track stringness explicitly. -/
inductive LCContent where
  | str (s : String)
  | nonString
  deriving DecidableEq, Repr

/-- The external (LangChain) message taxonomy used by src/message.py:
SystemMessage, HumanMessage, AIMessage (with tool calls), ToolMessage. -/
inductive BaseMessage where
  | system (content : LCContent)
  | human (content : LCContent)
  | ai (content : LCContent) (tool_calls : Option (List ToolCall))
  | tool (content : LCContent) (tool_call_id : Option String)
  deriving DecidableEq, Repr

/-- `message.content if isinstance(message.content, str) else ""`
(src/message.py line 98). -/
def lcCoerce : LCContent → String
  | .str s => s
  | .nonString => ""

/-- `Message.to_langchain` (src/message.py lines 49-78): role-dispatched
conversion to the external taxonomy; `None` content defaults to `""`;
an unrecognized role raises (modelled as `Except.error`). -/
def Message.to_langchain (m : Message) : Except String BaseMessage :=
  let content := m.content.getD ""
  if m.role = "system" then .ok (.system (.str content))
  else if m.role = "user" then .ok (.human (.str content))
  else if m.role = "assistant" then .ok (.ai (.str content) m.tool_calls)
  else if m.role = "tool" then .ok (.tool (.str content) m.tool_call_id)
  else .error ("invalid message role " ++ m.role)

/-- `Message.from_langchain` (src/message.py lines 80-112): variant-dispatched
conversion back to the canonical message; non-string content coerces to `""`. -/
def Message.from_langchain : BaseMessage → Message
  | .system c => { role := "system", content := some (lcCoerce c) }
  | .human c => { role := "user", content := some (lcCoerce c) }
  | .ai c tc => { role := "assistant", content := some (lcCoerce c), tool_calls := tc }
  | .tool c tid => { role := "tool", content := some (lcCoerce c), tool_call_id := tid }

/-- A valid `Message` per the spec's data-model invariant: one of the four
recognized roles, with `tool_calls` only on assistant messages and
`tool_call_id` only on tool messages. -/
def Message.valid (m : Message) : Prop :=
  (m.role = "system" ∨ m.role = "user" ∨ m.role = "assistant" ∨ m.role = "tool") ∧
  ((m.role = "system" ∨ m.role = "user") → m.tool_calls = none ∧ m.tool_call_id = none) ∧
  (m.role = "assistant" → m.tool_call_id = none) ∧
  (m.role = "tool" → m.tool_calls = none)

/-- C3: for every valid Message whose content is a string, converting to the
external chat-message format and back is the identity, preserving tool_calls
on assistant messages and tool_call_id on tool messages. -/
theorem from_to_langchain_round_trip (m : Message) (s : String)
    (hv : m.valid) (hc : m.content = some s) :
    m.to_langchain.map Message.from_langchain = Except.ok m := by
  obtain ⟨hrole, h1, h2, h3⟩ := hv
  cases m with
  | mk role content tc tcid =>
    simp only at hrole h1 h2 h3 hc
    subst hc
    rcases hrole with h | h | h | h <;> subst h
    · obtain ⟨htc, htid⟩ := h1 (Or.inl rfl)
      simp [Message.to_langchain, Message.from_langchain, lcCoerce, htc, htid, Except.map]
    · obtain ⟨htc, htid⟩ := h1 (Or.inr rfl)
      simp [Message.to_langchain, Message.from_langchain, lcCoerce, htc, htid, Except.map]
    · have htid := h2 rfl
      simp [Message.to_langchain, Message.from_langchain, lcCoerce, htid, Except.map]
    · have htc := h3 rfl
      simp [Message.to_langchain, Message.from_langchain, lcCoerce, htc, Except.map]

/-- Witness for C3 at a concrete assistant message with a tool call. -/
theorem from_to_langchain_round_trip_witness :
    (Message.mk "assistant" (some "hi") (some [⟨"f", "{}", some "1"⟩]) none).to_langchain.map
      Message.from_langchain =
      Except.ok (Message.mk "assistant" (some "hi") (some [⟨"f", "{}", some "1"⟩]) none) :=
  from_to_langchain_round_trip _ "hi"
    ⟨Or.inr (Or.inr (Or.inl rfl)), by simp, fun _ => rfl, by simp⟩ rfl

/-- C6: `to_langchain` succeeds for each of the four recognized roles and
fails (raises) for every other role value. -/
theorem to_langchain_role_total (m : Message) :
    ((m.role = "system" ∨ m.role = "user" ∨ m.role = "assistant" ∨ m.role = "tool") →
      ∃ b, m.to_langchain = Except.ok b) ∧
    (¬(m.role = "system" ∨ m.role = "user" ∨ m.role = "assistant" ∨ m.role = "tool") →
      m.to_langchain = Except.error ("invalid message role " ++ m.role)) := by
  constructor
  · intro hrole
    rcases hrole with h | h | h | h
    · exact ⟨.system (.str (m.content.getD "")), by simp [Message.to_langchain, h]⟩
    · exact ⟨.human (.str (m.content.getD "")), by simp [Message.to_langchain, h]⟩
    · exact ⟨.ai (.str (m.content.getD "")) m.tool_calls, by simp [Message.to_langchain, h]⟩
    · exact ⟨.tool (.str (m.content.getD "")) m.tool_call_id, by simp [Message.to_langchain, h]⟩
  · intro hrole
    push_neg at hrole
    obtain ⟨h1, h2, h3, h4⟩ := hrole
    simp [Message.to_langchain, h1, h2, h3, h4]

/-- Witness for C6: the user role converts; a synthetic fifth role errors. -/
theorem to_langchain_role_total_witness :
    (∃ b, (Message.mk "user" (some "x") none none).to_langchain = Except.ok b) ∧
    (Message.mk "wizard" (some "x") none none).to_langchain =
      Except.error ("invalid message role " ++ "wizard") :=
  ⟨(to_langchain_role_total (Message.mk "user" (some "x") none none)).1
      (Or.inr (Or.inl rfl)),
   (to_langchain_role_total (Message.mk "wizard" (some "x") none none)).2 (by simp)⟩

/-- `Message(role="user", content=text)` as constructed by the planner. -/
def userMessage (text : String) : Message :=
  { role := "user", content := some text }

/-- `Message(role="assistant", content=text)` as constructed by the planner. -/
def assistantMessage (text : String) : Message :=
  { role := "assistant", content := some text }

/-- The conversation-scoped state of src/state.py (`AppConversationState`):
a lights flag and the message history, with the class-level defaults. -/
structure AppConversationState where
  lights_on : Bool := false
  history : List Message := []
  deriving DecidableEq, Repr

/-- The per-turn state; the planner core only touches the conversation
partition of `AppTurnState` (src/state.py). -/
structure AppTurnState where
  conversation : AppConversationState
  deriving DecidableEq, Repr

/-- A Teams AI `PredictedSayCommand` carrying the response message. -/
structure PredictedSayCommand where
  response : Message
  deriving DecidableEq, Repr

/-- A Teams AI `Plan`: an ordered list of output commands. -/
structure Plan where
  commands : List PredictedSayCommand := []
  deriving DecidableEq, Repr

/-- The responder of src/langgraph_agent.py, as held by the planner: a fixed
system prompt bound at construction.  The model client itself is external. -/
structure SimpleLangGraphAgent where
  system_prompt : String
  deriving DecidableEq, Repr

/-- The outcome of the external model call made inside `agent.chat`: given the
agent, the user message and the prior history, either a reply text or an
exception. -/
def ChatFn : Type :=
  SimpleLangGraphAgent → String → List Message → Except String String

/-- The fixed apology text of the planner's error path
(src/langgraph_planner.py lines 210-218). -/
def fallbackText : String :=
  "I apologize, but I encountered an error while processing your request. Please try again."

/-- `LangGraphPlanner._ensure_agent_initialized` (src/langgraph_planner.py
lines 86-107): when `self.agent is None`, render the prompt (modelled by the
`render` outcome, an external prompt factory plus `render_as_text`) and
construct the agent; otherwise do nothing.  The second component counts how
many times the prompt was loaded and rendered during the call. -/
def ensure_agent_init (render : Except String String) :
    Option SimpleLangGraphAgent → Except String SimpleLangGraphAgent × Nat
  | some a => (.ok a, 0)
  | none =>
    match render with
    | .ok sp => (.ok ⟨sp⟩, 1)
    | .error e => (.error e, 1)

/-- `conversation_history = state.conversation.history[:-1] if
len(state.conversation.history) > 0 else []` (src/langgraph_planner.py
line 181). -/
def turn_prior_history (h : List Message) : List Message :=
  if h.length > 0 then h.dropLast else []

/-- `LangGraphPlanner._generate_response` (src/langgraph_planner.py lines
166-219): call the agent with the current message and the history minus the
just-appended message; on success append the assistant reply to history and
return a one-command plan; on any exception return the fixed apology plan and
leave history untouched. -/
def generate_response (chat : ChatFn) (a : SimpleLangGraphAgent) (text : String)
    (st : AppTurnState) : Plan × AppTurnState :=
  let conversation_history := turn_prior_history st.conversation.history
  match chat a text conversation_history with
  | .ok agent_response =>
    (⟨[⟨assistantMessage agent_response⟩]⟩,
     { st with conversation :=
        { st.conversation with
            history := st.conversation.history ++ [assistantMessage agent_response] } })
  | .error _ =>
    (⟨[⟨assistantMessage fallbackText⟩]⟩, st)

/-- `LangGraphPlanner.begin_task` (src/langgraph_planner.py lines 109-136):
ensure the agent exists (propagating a render failure), append the user
message to history, then generate the response.  Returns the plan-or-error,
the planner's agent field after the call, the state after the call, and the
number of prompt renders performed. -/
def begin_task (render : Except String String) (chat : ChatFn) (text : String)
    (agent : Option SimpleLangGraphAgent) (st : AppTurnState) :
    Except String (Plan × AppTurnState) × Option SimpleLangGraphAgent × Nat :=
  match ensure_agent_init render agent with
  | (.error e, n) => (.error e, agent, n)
  | (.ok a, n) =>
    let st1 : AppTurnState :=
      { st with conversation :=
          { st.conversation with
              history := st.conversation.history ++ [userMessage text] } }
    let res := generate_response chat a text st1
    (.ok (res.1, res.2), some a, n)

/-- `LangGraphPlanner.continue_task` (src/langgraph_planner.py lines 138-164):
identical body to `begin_task` apart from the log line. -/
def continue_task (render : Except String String) (chat : ChatFn) (text : String)
    (agent : Option SimpleLangGraphAgent) (st : AppTurnState) :
    Except String (Plan × AppTurnState) × Option SimpleLangGraphAgent × Nat :=
  match ensure_agent_init render agent with
  | (.error e, n) => (.error e, agent, n)
  | (.ok a, n) =>
    let st1 : AppTurnState :=
      { st with conversation :=
          { st.conversation with
              history := st.conversation.history ++ [userMessage text] } }
    let res := generate_response chat a text st1
    (.ok (res.1, res.2), some a, n)

theorem turn_prior_history_concat (h : List Message) (m : Message) :
    turn_prior_history (h ++ [m]) = h := by
  simp [turn_prior_history]

/-- C1: when the agent's chat call succeeds with reply `r`, `begin_task`
returns a plan with exactly one say command carrying
`Message(role="assistant", content=r)`, and the conversation history becomes
the old history followed by the user message and that assistant message. -/
theorem begin_task_success (render : Except String String) (chat : ChatFn)
    (text : String) (agent : Option SimpleLangGraphAgent) (st : AppTurnState)
    (a : SimpleLangGraphAgent) (n : Nat) (r : String)
    (hinit : ensure_agent_init render agent = (.ok a, n))
    (hchat : chat a text st.conversation.history = .ok r) :
    begin_task render chat text agent st =
      (.ok (⟨[⟨assistantMessage r⟩]⟩,
            ⟨⟨st.conversation.lights_on,
              st.conversation.history ++ [userMessage text, assistantMessage r]⟩⟩),
       some a, n) := by
  simp only [begin_task, hinit, generate_response, turn_prior_history_concat, hchat]
  simp

/-- Witness for C1: empty history, reply "Oslo." (the spec's scenario). -/
theorem begin_task_success_witness :
    begin_task (.ok "sys") (fun _ _ _ => .ok "Oslo.")
        "Hello! What is the capital of Norway?" none ⟨⟨false, []⟩⟩ =
      (.ok (⟨[⟨assistantMessage "Oslo."⟩]⟩,
            ⟨⟨false, [userMessage "Hello! What is the capital of Norway?",
                      assistantMessage "Oslo."]⟩⟩),
       some ⟨"sys"⟩, 1) := by
  have h := begin_task_success (.ok "sys") (fun _ _ _ => .ok "Oslo.")
    "Hello! What is the capital of Norway?" none ⟨⟨false, []⟩⟩ ⟨"sys"⟩ 1 "Oslo."
    rfl rfl
  simpa using h

/-- C2: when the agent's chat call raises, `begin_task` does not propagate
the exception: it returns a plan with exactly one command whose content is
the fixed apology string, and the history ends with the user message only
(no assistant message is appended). -/
theorem begin_task_failure (render : Except String String) (chat : ChatFn)
    (text : String) (agent : Option SimpleLangGraphAgent) (st : AppTurnState)
    (a : SimpleLangGraphAgent) (n : Nat) (e : String)
    (hinit : ensure_agent_init render agent = (.ok a, n))
    (hchat : chat a text st.conversation.history = .error e) :
    begin_task render chat text agent st =
      (.ok (⟨[⟨assistantMessage fallbackText⟩]⟩,
            ⟨⟨st.conversation.lights_on,
              st.conversation.history ++ [userMessage text]⟩⟩),
       some a, n) := by
  simp only [begin_task, hinit, generate_response, turn_prior_history_concat, hchat]

/-- Witness for C2 at a concrete failing chat call. -/
theorem begin_task_failure_witness :
    begin_task (.ok "sys") (fun _ _ _ => .error "boom") "hi" none ⟨⟨false, []⟩⟩ =
      (.ok (⟨[⟨assistantMessage fallbackText⟩]⟩, ⟨⟨false, [userMessage "hi"]⟩⟩),
       some ⟨"sys"⟩, 1) := by
  have h := begin_task_failure (.ok "sys") (fun _ _ _ => .error "boom") "hi" none
    ⟨⟨false, []⟩⟩ ⟨"sys"⟩ 1 "boom" rfl rfl
  simpa using h

/-- C5: after appending the user message, the prior-history computation
recovers exactly the history from before this turn, and `begin_task` invokes
the chat call only at that prior history: two chat oracles agreeing on
(agent, text, pre-turn history) give identical results. -/
theorem begin_task_prior_history (text : String) (st : AppTurnState) :
    turn_prior_history (st.conversation.history ++ [userMessage text]) =
      st.conversation.history ∧
    (∀ render chat1 chat2 agent,
      (∀ a : SimpleLangGraphAgent,
        chat1 a text st.conversation.history = chat2 a text st.conversation.history) →
      begin_task render chat1 text agent st = begin_task render chat2 text agent st) := by
  refine ⟨turn_prior_history_concat _ _, ?_⟩
  intro render chat1 chat2 agent hagree
  simp only [begin_task]
  cases hE : ensure_agent_init render agent with
  | mk res n =>
    cases res with
    | error e => rfl
    | ok a =>
      simp only [generate_response, turn_prior_history_concat, hagree a]

/-- Witness for C5 at a concrete state and a pair of agreeing oracles. -/
theorem begin_task_prior_history_witness :
    turn_prior_history ((⟨⟨false, [userMessage "a"]⟩⟩ : AppTurnState).conversation.history
        ++ [userMessage "b"]) = [userMessage "a"] ∧
    begin_task (.ok "sys") (fun _ _ _ => .ok "x") "b" none ⟨⟨false, [userMessage "a"]⟩⟩ =
      begin_task (.ok "sys") (fun _ _ _ => .ok "x") "b" none ⟨⟨false, [userMessage "a"]⟩⟩ :=
  ⟨(begin_task_prior_history "b" ⟨⟨false, [userMessage "a"]⟩⟩).1,
   (begin_task_prior_history "b" ⟨⟨false, [userMessage "a"]⟩⟩).2
      (.ok "sys") _ _ none (fun _ => rfl)⟩

/-- C7: `begin_task` and `continue_task` are behaviorally identical: for every
render outcome, chat oracle, incoming text, agent field and state, both
perform the same state change and return the same plan. -/
theorem begin_task_eq_continue_task (render : Except String String) (chat : ChatFn)
    (text : String) (agent : Option SimpleLangGraphAgent) (st : AppTurnState) :
    begin_task render chat text agent st = continue_task render chat text agent st :=
  rfl

/-- A sequence of planner calls (begin_task/continue_task, which coincide):
each turn supplies its incoming text and turn state; the planner's `agent`
field is threaded through, and prompt renders are counted. -/
def run_turns (render : Except String String) (chat : ChatFn) :
    List (String × AppTurnState) → Option SimpleLangGraphAgent →
    Option SimpleLangGraphAgent × Nat
  | [], agent => (agent, 0)
  | (text, st) :: rest, agent =>
    let step := begin_task render chat text agent st
    let tail := run_turns render chat rest step.2.1
    (tail.1, step.2.2 + tail.2)

theorem begin_task_agent_some (render : Except String String) (chat : ChatFn)
    (text : String) (a : SimpleLangGraphAgent) (st : AppTurnState) :
    (begin_task render chat text (some a) st).2 = (some a, 0) := by
  simp only [begin_task, ensure_agent_init]

/-- C4: responder initialization happens at most once per planner instance.
Once the agent field is set it is never replaced and no further prompt render
occurs, over any sequence of begin_task/continue_task calls; and starting
uninitialized with a succeeding render, any non-empty sequence of calls
renders the prompt exactly once and installs that system prompt for good. -/
theorem agent_init_at_most_once (render : Except String String) (chat : ChatFn)
    (sp : String) (turns turns2 : List (String × AppTurnState))
    (a : SimpleLangGraphAgent)
    (hr : render = .ok sp) (ht : turns2 ≠ []) :
    run_turns render chat turns (some a) = (some a, 0) ∧
    run_turns render chat turns2 none = (some ⟨sp⟩, 1) := by
  have hsome : ∀ ts (b : SimpleLangGraphAgent),
      run_turns render chat ts (some b) = (some b, 0) := by
    intro ts
    induction ts with
    | nil => intro b; rfl
    | cons t rest ih =>
      intro b
      obtain ⟨text, st⟩ := t
      simp only [run_turns, begin_task_agent_some, ih b]
  refine ⟨hsome turns a, ?_⟩
  cases turns2 with
  | nil => exact absurd rfl ht
  | cons t rest =>
    obtain ⟨text, st⟩ := t
    have hstep : (begin_task render chat text none st).2 = (some ⟨sp⟩, 1) := by
      simp only [begin_task, ensure_agent_init, hr]
    simp only [run_turns, hstep, hsome rest ⟨sp⟩]

/-- Witness for C4: a two-turn run from uninitialized renders once; a run
from an initialized agent renders zero times. -/
theorem agent_init_at_most_once_witness :
    run_turns (.ok "sys") (fun _ _ _ => .ok "x")
        [("a", ⟨⟨false, []⟩⟩)] (some ⟨"sys"⟩) = (some ⟨"sys"⟩, 0) ∧
    run_turns (.ok "sys") (fun _ _ _ => .ok "x")
        [("a", ⟨⟨false, []⟩⟩), ("b", ⟨⟨false, []⟩⟩)] none = (some ⟨"sys"⟩, 1) :=
  agent_init_at_most_once (.ok "sys") (fun _ _ _ => .ok "x") "sys"
    [("a", ⟨⟨false, []⟩⟩)] [("a", ⟨⟨false, []⟩⟩), ("b", ⟨⟨false, []⟩⟩)]
    ⟨"sys"⟩ rfl (by simp)

/-- What the storage backend returns for the conversation partition: a mapping
of field name to stored value, with `none` for absent fields (e.g. the first
turn of a conversation).  `AppConversationState.load` passes this mapping to
the class constructor (`cls(**state)` in src/state.py line 86), whose
class-level defaults are `lights_on = False` and `history = []`. -/
structure StoredConversation where
  lights_on : Option Bool := none
  history : Option (List Message) := none
  deriving DecidableEq, Repr

/-- `AppConversationState.load` (src/state.py lines 61-86): materialize the
typed conversation state from the stored mapping, absent fields taking the
class defaults of src/state.py lines 58-59. -/
def AppConversationState.load (s : StoredConversation) : AppConversationState :=
  { lights_on := s.lights_on.getD false, history := s.history.getD [] }

/-- C8: when the storage backend has no stored value for a conversation
field, the materialized state takes the documented defaults: `history = []`
and `lights_on = false`; in particular a wholly absent record (first turn)
loads as the default state. -/
theorem load_defaults (s : StoredConversation) :
    (s.history = none → (AppConversationState.load s).history = []) ∧
    (s.lights_on = none → (AppConversationState.load s).lights_on = false) ∧
    AppConversationState.load ⟨none, none⟩ = ⟨false, []⟩ := by
  refine ⟨?_, ?_, rfl⟩
  · intro h; simp [AppConversationState.load, h]
  · intro h; simp [AppConversationState.load, h]

/-- Witness for C8 at the wholly absent stored record. -/
theorem load_defaults_witness :
    (AppConversationState.load ⟨none, none⟩).history = [] ∧
    (AppConversationState.load ⟨none, none⟩).lights_on = false :=
  ⟨(load_defaults ⟨none, none⟩).1 rfl, (load_defaults ⟨none, none⟩).2.1 rfl⟩

/-- An entry of the loosely-typed `conversation_history` list passed to
`SimpleLangGraphAgent.chat`: either an object exposing both a `role` and a
`content` attribute, or a malformed object missing one of them (the
`hasattr` probe of src/langgraph_agent.py line 97 fails). -/
inductive HistEntry where
  | entry (role : String) (content : String)
  | noAttrs
  deriving DecidableEq, Repr

/-- The history-conversion loop of `SimpleLangGraphAgent.chat`
(src/langgraph_agent.py lines 95-102): user entries become HumanMessage,
assistant entries become AIMessage, everything else is skipped. -/
def history_to_messages : List HistEntry → List BaseMessage
  | [] => []
  | HistEntry.entry role content :: rest =>
    if role = "user" then BaseMessage.human (.str content) :: history_to_messages rest
    else if role = "assistant" then
      BaseMessage.ai (.str content) none :: history_to_messages rest
    else history_to_messages rest
  | HistEntry.noAttrs :: rest => history_to_messages rest

/-- Per-entry view of the same loop, for the filtering characterization. -/
def convertEntry : HistEntry → Option BaseMessage
  | HistEntry.entry role content =>
    if role = "user" then some (BaseMessage.human (.str content))
    else if role = "assistant" then some (BaseMessage.ai (.str content) none)
    else none
  | HistEntry.noAttrs => none

/-- `SimpleLangGraphAgent._chat_node` (src/langgraph_agent.py lines 65-79):
the system instruction is prepended exactly when the state's message list is
a single HumanMessage; the result is the list handed to `llm.ainvoke`. -/
def chat_node_input (system_prompt : String) (messages : List BaseMessage) :
    List BaseMessage :=
  match messages with
  | [BaseMessage.human c] =>
    BaseMessage.system (.str system_prompt) :: [BaseMessage.human c]
  | ms => ms

/-- The message list `SimpleLangGraphAgent.chat` (src/langgraph_agent.py
lines 81-117) causes to reach the model: converted prior history, then the
current user message, then the `_chat_node` system-prompt rule. -/
def chat_llm_input (system_prompt message : String)
    (conversation_history : List HistEntry) : List BaseMessage :=
  chat_node_input system_prompt
    (history_to_messages conversation_history ++ [BaseMessage.human (.str message)])

/-- Whether a message list contains a SystemMessage. -/
def hasSystemMessage : List BaseMessage → Bool
  | [] => false
  | BaseMessage.system _ :: _ => true
  | _ :: rest => hasSystemMessage rest

theorem history_to_messages_eq_filterMap (hist : List HistEntry) :
    history_to_messages hist = hist.filterMap convertEntry := by
  induction hist with
  | nil => rfl
  | cons e rest ih =>
    cases e with
    | entry role content =>
      by_cases hu : role = "user"
      · simp [history_to_messages, convertEntry, hu, ih]
      · by_cases ha : role = "assistant"
        · simp [history_to_messages, convertEntry, hu, ha, ih]
        · simp [history_to_messages, convertEntry, hu, ha, ih]
    | noAttrs => simp [history_to_messages, convertEntry, ih]

theorem hasSystemMessage_history_append (hist : List HistEntry)
    (l : List BaseMessage) :
    hasSystemMessage (history_to_messages hist ++ l) = hasSystemMessage l := by
  induction hist with
  | nil => rfl
  | cons e rest ih =>
    cases e with
    | entry role content =>
      by_cases hu : role = "user"
      · simp [history_to_messages, hu, hasSystemMessage, ih]
      · by_cases ha : role = "assistant"
        · simp [history_to_messages, hu, ha, hasSystemMessage, ih]
        · simp [history_to_messages, hu, ha, ih]
    | noAttrs => simpa [history_to_messages] using ih

theorem chat_node_input_cons2 (sp : String) (x y : BaseMessage)
    (l : List BaseMessage) :
    chat_node_input sp (x :: y :: l) = x :: y :: l := by
  cases x <;> rfl

/-- C9 counterexample: a chat call whose prior conversation history is the
single (non-empty) entry `role="system"` still invokes the model with a
system message, because the system/tool filtering empties the converted
history and the single-HumanMessage rule then fires. -/
theorem chat_system_message_nonempty_history :
    ([HistEntry.entry "system" "x"] ≠ ([] : List HistEntry)) ∧
    hasSystemMessage (chat_llm_input "S" "hi" [HistEntry.entry "system" "x"]) = true := by
  constructor
  · simp
  · decide

/-- C9 amended: the system instruction reaches the model exactly when the
converted prior history is empty, i.e. when the message list handed to the
graph is the single just-appended user message; any prior history containing
a user or assistant entry suppresses the system message. -/
theorem chat_system_message_iff (sp message : String) (hist : List HistEntry) :
    hasSystemMessage (chat_llm_input sp message hist) =
      (history_to_messages hist).isEmpty := by
  unfold chat_llm_input
  cases hE : history_to_messages hist with
  | nil => rfl
  | cons m ms =>
    cases ms with
    | nil =>
      rw [List.cons_append, List.nil_append, chat_node_input_cons2]
      have := hasSystemMessage_history_append hist [BaseMessage.human (.str message)]
      rw [hE] at this
      simpa [List.isEmpty] using this
    | cons y ys =>
      rw [List.cons_append, List.cons_append, chat_node_input_cons2]
      have := hasSystemMessage_history_append hist [BaseMessage.human (.str message)]
      rw [hE] at this
      simpa [List.isEmpty] using this

/-- C10: the history conversion forwards exactly the entries carrying both
attributes with role "user" or "assistant", in order (as HumanMessage resp.
AIMessage), and drops every other entry: system entries, tool entries, any
other role, and attribute-less objects never reach the model. -/
theorem chat_history_filters_roles (hist : List HistEntry)
    (pre post : List HistEntry) (r c : String) :
    history_to_messages hist = hist.filterMap convertEntry ∧
    convertEntry (HistEntry.entry "user" c) = some (BaseMessage.human (.str c)) ∧
    convertEntry (HistEntry.entry "assistant" c) =
      some (BaseMessage.ai (.str c) none) ∧
    (r ≠ "user" → r ≠ "assistant" →
      history_to_messages (pre ++ HistEntry.entry r c :: post) =
        history_to_messages (pre ++ post)) ∧
    history_to_messages (pre ++ HistEntry.noAttrs :: post) =
      history_to_messages (pre ++ post) := by
  refine ⟨history_to_messages_eq_filterMap hist, by simp [convertEntry],
    by simp [convertEntry], ?_, ?_⟩
  · intro hu ha
    rw [history_to_messages_eq_filterMap, history_to_messages_eq_filterMap]
    simp [List.filterMap_append, convertEntry, hu, ha]
  · rw [history_to_messages_eq_filterMap, history_to_messages_eq_filterMap]
    simp [List.filterMap_append, convertEntry]

/-- Witness for C10 at a mixed concrete history with a tool entry. -/
theorem chat_history_filters_roles_witness :
    history_to_messages
        [HistEntry.entry "user" "a", HistEntry.entry "tool" "t",
         HistEntry.entry "assistant" "b", HistEntry.noAttrs] =
      [HistEntry.entry "user" "a", HistEntry.entry "tool" "t",
       HistEntry.entry "assistant" "b",
       HistEntry.noAttrs].filterMap convertEntry ∧
    history_to_messages
        ([HistEntry.entry "user" "a"] ++ HistEntry.entry "tool" "t" ::
          [HistEntry.entry "assistant" "b"]) =
      history_to_messages
        ([HistEntry.entry "user" "a"] ++ [HistEntry.entry "assistant" "b"]) :=
  ⟨(chat_history_filters_roles
      [HistEntry.entry "user" "a", HistEntry.entry "tool" "t",
       HistEntry.entry "assistant" "b", HistEntry.noAttrs]
      [] [] "tool" "t").1,
   (chat_history_filters_roles []
      [HistEntry.entry "user" "a"] [HistEntry.entry "assistant" "b"] "tool" "t").2.2.2.1
      (by decide) (by decide)⟩

end TeamsBot
